import Mathlib

/-!
Verification of the EducationDataAPI client (educationdata/api.py).

Each client method of the Python class EducationDataAPI builds a URL from a fixed
base URL, a per-topic path, an optional segment fragment governed by boolean
segment flags, and a query string serialized from an open keyword mapping; it then
issues one request through session.get. A ValueError is raised before the request
when the segment flags violate the validation rules at the top of the method.

The embedding below translates the URL construction and the flag validation of the
relevant methods. A method invocation is modelled as the pair of the list of URLs
fetched through session.get and the outcome: either the message of the raised
ValueError, or the URL whose decoded body the method returns. Keyword arguments are
modelled as an ordered association list of already-rendered key and value strings,
matching the verbatim f-string serialization of the source.
-/

/-- The fixed base URL of the service, the class attribute BASE_URL. -/
def BASE_URL : String := "https://educationdata.urban.org/api/v1/"

/-- The four boolean segment flags a caller may pass to a segmented endpoint
method: race_segment, sex_segment, disability_segment, lep_segment. -/
structure SegFlags where
  race : Bool
  sex : Bool
  disability : Bool
  lep : Bool
deriving DecidableEq, Repr

/-- The extra filter keyword mapping of a call, in mapping order. -/
abbrev KW := List (String × String)

/-- One method invocation: the URLs fetched through session.get, and the outcome
(the message of a raised ValueError, or the URL whose body is returned). -/
abbrev Run := List String × Except String String

/-- Serialization of the keyword mapping: key=value pairs joined by an ampersand in
mapping order, the repeated Python snippet joining f-string pairs with the
ampersand. -/
def serializeKwargs (kwargs : KW) : String :=
  String.intercalate "&" (kwargs.map fun kv => kv.1 ++ "=" ++ kv.2)

/-- The repeated query-append snippet of every method: when the keyword mapping is
nonempty, a question mark and the serialized filters are appended; otherwise the
URL is unchanged. -/
def appendKwargs (url : String) (kwargs : KW) : String :=
  if kwargs.isEmpty then url else url ++ "?" ++ serializeKwargs kwargs

/-- Flag validation shared verbatim by get_crdc_enrollment,
get_crdc_bullying_segment, get_crdc_absenteeism_segment,
get_crdc_advanced_enrollment_segment, get_crdc_ap_segment,
get_crdc_college_exam_segment, get_crdc_math_science_enrollment_segment,
get_crdc_algebra_enrollment_segment and get_crdc_dual_enrollment_segment: the four
sequential if/raise statements at the top of each of those methods. -/
def validatePairFamily (f : SegFlags) : Except String Unit :=
  if f.race && !f.sex then
    .error "Race can only be combined with sex."
  else if f.disability && !f.sex then
    .error "Disability can only be combined with sex."
  else if f.lep && !f.sex then
    .error "LEP can only be combined with sex."
  else if (f.race && f.disability) || (f.race && f.lep) || (f.disability && f.lep) then
    .error "Only the combinations (race and sex), (disability and sex), and (lep and sex) are allowed."
  else
    .ok ()

/-- Flag validation shared verbatim by get_crdc_discipline_segment and
get_crdc_restraint_segment: the five sequential if/raise statements at the top of
those two methods. -/
def validateAnchorFamily (f : SegFlags) : Except String Unit :=
  if f.disability && !f.sex then
    .error "Disability can only be combined with sex."
  else if f.race && !(f.disability && f.sex) then
    .error "Race can only be combined with disability and sex."
  else if f.lep && !(f.disability && f.sex) then
    .error "LEP can only be combined with disability and sex."
  else if f.race && f.lep then
    .error "Race and LEP cannot be combined together."
  else if !(f.disability && f.sex) then
    .error "At least disability and sex must be combined."
  else
    .ok ()

/-- URL fragment cascade of get_crdc_enrollment. Note the final elif arm on
sex_segment alone, which maps the sex-only flag set to the fragment sex/. -/
def crdcEnrollmentFragment (f : SegFlags) : String :=
  if f.race && f.sex then "race/sex/"
  else if f.disability && f.sex then "disability/sex/"
  else if f.lep && f.sex then "lep/sex/"
  else if f.sex then "sex/"
  else ""

/-- URL fragment cascade shared by get_crdc_bullying_segment,
get_crdc_absenteeism_segment, get_crdc_advanced_enrollment_segment,
get_crdc_ap_segment, get_crdc_college_exam_segment,
get_crdc_math_science_enrollment_segment and get_crdc_algebra_enrollment_segment:
three arms with trailing slashes and no arm for sex alone. -/
def pairFragmentSlash (f : SegFlags) : String :=
  if f.race && f.sex then "race/sex/"
  else if f.disability && f.sex then "disability/sex/"
  else if f.lep && f.sex then "lep/sex/"
  else ""

/-- URL fragment cascade of get_crdc_dual_enrollment_segment: same arms but without
trailing slashes. -/
def pairFragmentNoSlash (f : SegFlags) : String :=
  if f.race && f.sex then "race/sex"
  else if f.disability && f.sex then "disability/sex"
  else if f.lep && f.sex then "lep/sex"
  else ""

/-- URL fragment cascade shared by get_crdc_discipline_segment and
get_crdc_restraint_segment. -/
def anchorFragment (f : SegFlags) : String :=
  if f.disability && f.sex && f.race then "disability/race/sex/"
  else if f.disability && f.sex && f.lep then "disability/lep/sex/"
  else if f.disability && f.sex then "disability/sex/"
  else ""

/-- The message raised by get_crdc_days_suspended_segment and
get_crdc_retention_segment on an invalid combination (identical literal in both
methods). -/
def invalidCombMsg : String :=
  "Invalid segment combination. Valid combinations are: race and sex, disability and sex, LEP and sex."

/-- Validation and segment choice of get_crdc_days_suspended_segment: one guard
accepting exactly one of three pairings, with an inner cascade choosing the
segments string, and a raise in the else branch. The inner cascade is exhaustive
whenever the guard holds, so its final arm is unreachable. -/
def validateDaysSuspended (f : SegFlags) : Except String String :=
  if (f.race && f.sex && !f.disability && !f.lep) ||
     (f.disability && f.sex && !f.race && !f.lep) ||
     (f.lep && f.sex && !f.race && !f.disability) then
    if f.race && f.sex then .ok "race/sex"
    else if f.disability && f.sex then .ok "disability/sex"
    else if f.lep && f.sex then .ok "lep/sex"
    else .ok ""
  else
    .error invalidCombMsg

/-- Validation and segment choice of get_crdc_retention_segment: an exact if/elif
chain with a raise in the else branch. -/
def validateRetention (f : SegFlags) : Except String String :=
  if f.race && f.sex && !(f.disability || f.lep) then .ok "race/sex"
  else if f.disability && f.sex && !(f.race || f.lep) then .ok "disability/sex"
  else if f.lep && f.sex && !(f.race || f.disability) then .ok "lep/sex"
  else .error invalidCombMsg

/-- get_crdc_enrollment: validation, URL construction and the single request. -/
def get_crdc_enrollment (year : Int) (f : SegFlags) (kwargs : KW) : Run :=
  match validatePairFamily f with
  | .error e => ([], .error e)
  | .ok _ =>
    let url := appendKwargs
      (BASE_URL ++ "schools/crdc/enrollment/" ++ toString year ++ "/" ++ crdcEnrollmentFragment f)
      kwargs
    ([url], .ok url)

/-- get_crdc_discipline_segment: validation, URL construction and the single
request. -/
def get_crdc_discipline_segment (year : Int) (f : SegFlags) (kwargs : KW) : Run :=
  match validateAnchorFamily f with
  | .error e => ([], .error e)
  | .ok _ =>
    let url := appendKwargs
      (BASE_URL ++ "schools/crdc/discipline/" ++ toString year ++ "/" ++ anchorFragment f)
      kwargs
    ([url], .ok url)

/-- get_crdc_bullying_segment: validation, URL construction and the single
request. -/
def get_crdc_bullying_segment (year : Int) (f : SegFlags) (kwargs : KW) : Run :=
  match validatePairFamily f with
  | .error e => ([], .error e)
  | .ok _ =>
    let url := appendKwargs
      (BASE_URL ++ "schools/crdc/harassment-or-bullying/" ++ toString year ++ "/" ++ pairFragmentSlash f)
      kwargs
    ([url], .ok url)

/-- get_crdc_absenteeism_segment: validation, URL construction and the single
request. -/
def get_crdc_absenteeism_segment (year : Int) (f : SegFlags) (kwargs : KW) : Run :=
  match validatePairFamily f with
  | .error e => ([], .error e)
  | .ok _ =>
    let url := appendKwargs
      (BASE_URL ++ "schools/crdc/chronic-absenteeism/" ++ toString year ++ "/" ++ pairFragmentSlash f)
      kwargs
    ([url], .ok url)

/-- get_crdc_restraint_segment: validation, URL construction and the single
request. -/
def get_crdc_restraint_segment (year : Int) (f : SegFlags) (kwargs : KW) : Run :=
  match validateAnchorFamily f with
  | .error e => ([], .error e)
  | .ok _ =>
    let url := appendKwargs
      (BASE_URL ++ "schools/crdc/restraint-and-seclusion/" ++ toString year ++ "/" ++ anchorFragment f)
      kwargs
    ([url], .ok url)

/-- get_crdc_advanced_enrollment_segment: validation, URL construction and the
single request. -/
def get_crdc_advanced_enrollment_segment (year : Int) (f : SegFlags) (kwargs : KW) : Run :=
  match validatePairFamily f with
  | .error e => ([], .error e)
  | .ok _ =>
    let url := appendKwargs
      (BASE_URL ++ "schools/crdc/ap-ib-enrollment/" ++ toString year ++ "/" ++ pairFragmentSlash f)
      kwargs
    ([url], .ok url)

/-- get_crdc_ap_segment: validation, URL construction and the single request. -/
def get_crdc_ap_segment (year : Int) (f : SegFlags) (kwargs : KW) : Run :=
  match validatePairFamily f with
  | .error e => ([], .error e)
  | .ok _ =>
    let url := appendKwargs
      (BASE_URL ++ "schools/crdc/ap-exams/" ++ toString year ++ "/" ++ pairFragmentSlash f)
      kwargs
    ([url], .ok url)

/-- get_crdc_college_exam_segment: validation, URL construction and the single
request. -/
def get_crdc_college_exam_segment (year : Int) (f : SegFlags) (kwargs : KW) : Run :=
  match validatePairFamily f with
  | .error e => ([], .error e)
  | .ok _ =>
    let url := appendKwargs
      (BASE_URL ++ "schools/crdc/sat-act-participation/" ++ toString year ++ "/" ++ pairFragmentSlash f)
      kwargs
    ([url], .ok url)

/-- get_crdc_math_science_enrollment_segment: validation, URL construction and the
single request. -/
def get_crdc_math_science_enrollment_segment (year : Int) (f : SegFlags) (kwargs : KW) : Run :=
  match validatePairFamily f with
  | .error e => ([], .error e)
  | .ok _ =>
    let url := appendKwargs
      (BASE_URL ++ "schools/crdc/math-and-science/" ++ toString year ++ "/" ++ pairFragmentSlash f)
      kwargs
    ([url], .ok url)

/-- get_crdc_algebra_enrollment_segment: validation, URL construction and the
single request. -/
def get_crdc_algebra_enrollment_segment (year : Int) (f : SegFlags) (kwargs : KW) : Run :=
  match validatePairFamily f with
  | .error e => ([], .error e)
  | .ok _ =>
    let url := appendKwargs
      (BASE_URL ++ "schools/crdc/algebra1/" ++ toString year ++ "/" ++ pairFragmentSlash f)
      kwargs
    ([url], .ok url)

/-- get_crdc_dual_enrollment_segment: validation, URL construction and the single
request (its fragments carry no trailing slash). -/
def get_crdc_dual_enrollment_segment (year : Int) (f : SegFlags) (kwargs : KW) : Run :=
  match validatePairFamily f with
  | .error e => ([], .error e)
  | .ok _ =>
    let url := appendKwargs
      (BASE_URL ++ "schools/crdc/dual-enrollment/" ++ toString year ++ "/" ++ pairFragmentNoSlash f)
      kwargs
    ([url], .ok url)

/-- get_crdc_days_suspended_segment: validation, URL construction and the single
request; the segments string is interpolated between the year and a trailing
slash. -/
def get_crdc_days_suspended_segment (year : Int) (f : SegFlags) (kwargs : KW) : Run :=
  match validateDaysSuspended f with
  | .error e => ([], .error e)
  | .ok segments =>
    let url := appendKwargs
      (BASE_URL ++ "schools/crdc/suspensions-days/" ++ toString year ++ "/" ++ segments ++ "/")
      kwargs
    ([url], .ok url)

/-- get_crdc_retention_segment: validation, URL construction and the single
request; the grade is part of the path and the segments string ends the path with
no trailing slash. -/
def get_crdc_retention_segment (year grade : Int) (f : SegFlags) (kwargs : KW) : Run :=
  match validateRetention f with
  | .error e => ([], .error e)
  | .ok segments =>
    let url := appendKwargs
      (BASE_URL ++ "schools/crdc/retention/" ++ toString year ++ "/grade-" ++ toString grade ++ "/" ++ segments)
      kwargs
    ([url], .ok url)

/-- get_ccd_directory: URL construction only; the method has no validation and
always issues exactly one request. -/
def get_ccd_directory (year : Int) (kwargs : KW) : String :=
  appendKwargs (BASE_URL ++ "schools/ccd/directory/" ++ toString year ++ "/") kwargs

/-- get_ccd_enrollment: URL construction only; the method has no validation of its
race and sex booleans and always issues exactly one request. -/
def get_ccd_enrollment (year grade : Int) (race sex : Bool) (kwargs : KW) : String :=
  let url := BASE_URL ++ "schools/ccd/enrollment/" ++ toString year ++ "/grade-" ++ toString grade ++ "/"
  let url :=
    if race && sex then url ++ "race/sex/"
    else if race then url ++ "race/"
    else if sex then url ++ "sex/"
    else url
  appendKwargs url kwargs

/-- get_ccd_summary: the base URL already ends with a question mark, the three
required query parameters follow, and extra filters are joined with an ampersand
rather than introduced by the question mark. -/
def get_ccd_summary (var stat by_ : String) (kwargs : KW) : String :=
  let url := BASE_URL ++ "schools/ccd/directory/summaries?"
  let query_params := "var=" ++ var ++ "&stat=" ++ stat ++ "&by=" ++ by_
  let query_params :=
    if kwargs.isEmpty then query_params
    else query_params ++ "&" ++ serializeKwargs kwargs
  url ++ query_params

/-- The segmented endpoint methods: every client method taking the four boolean
segment flags and validating their combination. -/
inductive Topic
  | crdcEnrollment
  | disciplineSegment
  | bullyingSegment
  | absenteeismSegment
  | restraintSegment
  | advancedEnrollmentSegment
  | apSegment
  | collegeExamSegment
  | mathScienceSegment
  | algebraSegment
  | dualEnrollmentSegment
  | daysSuspendedSegment
  | retentionSegment
deriving DecidableEq, Repr

/-- Pure segment resolution of a topic: the validation verdict together with the
URL fragment the method appends on acceptance (the resolver of the
specification). For the days-suspended topic the method later adds one more slash
after the fragment; for the retention topic the fragment ends the path as is. -/
def resolve : Topic → SegFlags → Except String String
  | .crdcEnrollment, f => (validatePairFamily f).map fun _ => crdcEnrollmentFragment f
  | .disciplineSegment, f => (validateAnchorFamily f).map fun _ => anchorFragment f
  | .bullyingSegment, f => (validatePairFamily f).map fun _ => pairFragmentSlash f
  | .absenteeismSegment, f => (validatePairFamily f).map fun _ => pairFragmentSlash f
  | .restraintSegment, f => (validateAnchorFamily f).map fun _ => anchorFragment f
  | .advancedEnrollmentSegment, f => (validatePairFamily f).map fun _ => pairFragmentSlash f
  | .apSegment, f => (validatePairFamily f).map fun _ => pairFragmentSlash f
  | .collegeExamSegment, f => (validatePairFamily f).map fun _ => pairFragmentSlash f
  | .mathScienceSegment, f => (validatePairFamily f).map fun _ => pairFragmentSlash f
  | .algebraSegment, f => (validatePairFamily f).map fun _ => pairFragmentSlash f
  | .dualEnrollmentSegment, f => (validatePairFamily f).map fun _ => pairFragmentNoSlash f
  | .daysSuspendedSegment, f => validateDaysSuspended f
  | .retentionSegment, f => validateRetention f

/-- Dispatch from a topic to its method. The grade argument is used only by the
retention method. -/
def runTopic : Topic → Int → Int → SegFlags → KW → Run
  | .crdcEnrollment, year, _, f, kw => get_crdc_enrollment year f kw
  | .disciplineSegment, year, _, f, kw => get_crdc_discipline_segment year f kw
  | .bullyingSegment, year, _, f, kw => get_crdc_bullying_segment year f kw
  | .absenteeismSegment, year, _, f, kw => get_crdc_absenteeism_segment year f kw
  | .restraintSegment, year, _, f, kw => get_crdc_restraint_segment year f kw
  | .advancedEnrollmentSegment, year, _, f, kw => get_crdc_advanced_enrollment_segment year f kw
  | .apSegment, year, _, f, kw => get_crdc_ap_segment year f kw
  | .collegeExamSegment, year, _, f, kw => get_crdc_college_exam_segment year f kw
  | .mathScienceSegment, year, _, f, kw => get_crdc_math_science_enrollment_segment year f kw
  | .algebraSegment, year, _, f, kw => get_crdc_algebra_enrollment_segment year f kw
  | .dualEnrollmentSegment, year, _, f, kw => get_crdc_dual_enrollment_segment year f kw
  | .daysSuspendedSegment, year, _, f, kw => get_crdc_days_suspended_segment year f kw
  | .retentionSegment, year, grade, f, kw => get_crdc_retention_segment year grade f kw

/-- The flag combinations each segmented method documents as allowed, paired with
the URL fragment the method body appends for that combination. Field order of
SegFlags is race, sex, disability, lep. -/
def declaredLegal : Topic → List (SegFlags × String)
  | .crdcEnrollment =>
      [(⟨true, true, false, false⟩, "race/sex/"),
       (⟨false, true, true, false⟩, "disability/sex/"),
       (⟨false, true, false, true⟩, "lep/sex/")]
  | .disciplineSegment =>
      [(⟨false, true, true, false⟩, "disability/sex/"),
       (⟨true, true, true, false⟩, "disability/race/sex/"),
       (⟨false, true, true, true⟩, "disability/lep/sex/")]
  | .bullyingSegment =>
      [(⟨true, true, false, false⟩, "race/sex/"),
       (⟨false, true, true, false⟩, "disability/sex/"),
       (⟨false, true, false, true⟩, "lep/sex/")]
  | .absenteeismSegment =>
      [(⟨true, true, false, false⟩, "race/sex/"),
       (⟨false, true, true, false⟩, "disability/sex/"),
       (⟨false, true, false, true⟩, "lep/sex/")]
  | .restraintSegment =>
      [(⟨false, true, true, false⟩, "disability/sex/"),
       (⟨true, true, true, false⟩, "disability/race/sex/"),
       (⟨false, true, true, true⟩, "disability/lep/sex/")]
  | .advancedEnrollmentSegment =>
      [(⟨true, true, false, false⟩, "race/sex/"),
       (⟨false, true, true, false⟩, "disability/sex/"),
       (⟨false, true, false, true⟩, "lep/sex/")]
  | .apSegment =>
      [(⟨true, true, false, false⟩, "race/sex/"),
       (⟨false, true, true, false⟩, "disability/sex/"),
       (⟨false, true, false, true⟩, "lep/sex/")]
  | .collegeExamSegment =>
      [(⟨true, true, false, false⟩, "race/sex/"),
       (⟨false, true, true, false⟩, "disability/sex/"),
       (⟨false, true, false, true⟩, "lep/sex/")]
  | .mathScienceSegment =>
      [(⟨true, true, false, false⟩, "race/sex/"),
       (⟨false, true, true, false⟩, "disability/sex/"),
       (⟨false, true, false, true⟩, "lep/sex/")]
  | .algebraSegment =>
      [(⟨true, true, false, false⟩, "race/sex/"),
       (⟨false, true, true, false⟩, "disability/sex/"),
       (⟨false, true, false, true⟩, "lep/sex/")]
  | .dualEnrollmentSegment =>
      [(⟨true, true, false, false⟩, "race/sex"),
       (⟨false, true, true, false⟩, "disability/sex"),
       (⟨false, true, false, true⟩, "lep/sex")]
  | .daysSuspendedSegment =>
      [(⟨true, true, false, false⟩, "race/sex"),
       (⟨false, true, true, false⟩, "disability/sex"),
       (⟨false, true, false, true⟩, "lep/sex")]
  | .retentionSegment =>
      [(⟨true, true, false, false⟩, "race/sex"),
       (⟨false, true, true, false⟩, "disability/sex"),
       (⟨false, true, false, true⟩, "lep/sex")]

/-- The literal messages of the raise statements of each segmented method. -/
def rejectionMessages : Topic → List String
  | .disciplineSegment =>
      ["Disability can only be combined with sex.",
       "Race can only be combined with disability and sex.",
       "LEP can only be combined with disability and sex.",
       "Race and LEP cannot be combined together.",
       "At least disability and sex must be combined."]
  | .restraintSegment =>
      ["Disability can only be combined with sex.",
       "Race can only be combined with disability and sex.",
       "LEP can only be combined with disability and sex.",
       "Race and LEP cannot be combined together.",
       "At least disability and sex must be combined."]
  | .daysSuspendedSegment => [invalidCombMsg]
  | .retentionSegment => [invalidCombMsg]
  | _ =>
      ["Race can only be combined with sex.",
       "Disability can only be combined with sex.",
       "LEP can only be combined with sex.",
       "Only the combinations (race and sex), (disability and sex), and (lep and sex) are allowed."]

/-- Boolean check that a rejection, when present, carries one of the fixed messages
of the given topic. -/
def messagesOk (t : Topic) : Except String String → Bool
  | .error m => (rejectionMessages t).contains m
  | .ok _ => true

/-- Boolean acceptance verdict of a resolution outcome. -/
def isAccepted : Except String String → Bool
  | .ok _ => true
  | .error _ => false

/-- Mapping a successful value does not change whether an Except is an error. -/
theorem map_error_iff {α β : Type} (g : α → β) (x : Except String α) (e : String) :
    x.map g = .error e ↔ x = .error e := by
  cases x <;> simp [Except.map]

/-- Appending an empty keyword mapping leaves the URL unchanged. -/
theorem appendKwargs_nil (url : String) : appendKwargs url [] = url := rfl

/-- C1: evaluation at the failing inputs. The sex-only flag set and the empty flag
set are not among the combinations get_crdc_bullying_segment documents as allowed,
yet validation passes and the method fetches the unsegmented URL instead of
raising; get_crdc_enrollment even maps the sex-only set to the fragment sex/. -/
theorem undocumented_flag_sets_accepted :
    resolve .bullyingSegment ⟨false, true, false, false⟩ = .ok "" ∧
    resolve .bullyingSegment ⟨false, false, false, false⟩ = .ok "" ∧
    resolve .crdcEnrollment ⟨false, true, false, false⟩ = .ok "sex/" ∧
    (get_crdc_bullying_segment 2013 ⟨false, true, false, false⟩ []).2 =
      .ok "https://educationdata.urban.org/api/v1/schools/crdc/harassment-or-bullying/2013/" ∧
    (get_crdc_bullying_segment 2013 ⟨false, true, false, false⟩ []).1 =
      ["https://educationdata.urban.org/api/v1/schools/crdc/harassment-or-bullying/2013/"] :=
  ⟨rfl, rfl, rfl, rfl, rfl⟩

/-- C2 counterexample: two distinct illegal flag sets given to
get_crdc_days_suspended_segment are rejected with the identical fixed message, so
the error content cannot carry the attempted flag set. -/
theorem days_suspended_error_content_constant :
    (⟨true, false, false, false⟩ : SegFlags) ≠ ⟨false, false, true, false⟩ ∧
    resolve .daysSuspendedSegment ⟨true, false, false, false⟩ = .error invalidCombMsg ∧
    resolve .daysSuspendedSegment ⟨false, false, true, false⟩ = .error invalidCombMsg :=
  ⟨by decide, rfl, rfl⟩

/-- C2 amended: every rejection of a segmented method carries one of a fixed,
per-topic set of literal messages naming a legal requirement; the attempted flag
set is not part of the error content. -/
theorem rejection_messages_fixed :
    ∀ (t : Topic) (r s d l : Bool),
      messagesOk t (resolve t ⟨r, s, d, l⟩) = true := by
  intro t r s d l
  cases t <;> cases r <;> cases s <;> cases d <;> cases l <;> rfl

/-- C3: get_crdc_days_suspended_segment accepts a flag assignment exactly when the
set of true flags is one of race+sex, disability+sex or lep+sex, fetching the URL
with the matching segments between year and trailing slash, and otherwise performs
no request and raises the fixed ValueError. -/
theorem days_suspended_exact_three_pairs :
    ∀ (year : Int) (kwargs : KW) (r s d l : Bool),
      get_crdc_days_suspended_segment year ⟨r, s, d, l⟩ kwargs =
        if r && s && !d && !l then
          ([appendKwargs (BASE_URL ++ "schools/crdc/suspensions-days/" ++ toString year ++ "/" ++ "race/sex" ++ "/") kwargs],
           .ok (appendKwargs (BASE_URL ++ "schools/crdc/suspensions-days/" ++ toString year ++ "/" ++ "race/sex" ++ "/") kwargs))
        else if d && s && !r && !l then
          ([appendKwargs (BASE_URL ++ "schools/crdc/suspensions-days/" ++ toString year ++ "/" ++ "disability/sex" ++ "/") kwargs],
           .ok (appendKwargs (BASE_URL ++ "schools/crdc/suspensions-days/" ++ toString year ++ "/" ++ "disability/sex" ++ "/") kwargs))
        else if l && s && !r && !d then
          ([appendKwargs (BASE_URL ++ "schools/crdc/suspensions-days/" ++ toString year ++ "/" ++ "lep/sex" ++ "/") kwargs],
           .ok (appendKwargs (BASE_URL ++ "schools/crdc/suspensions-days/" ++ toString year ++ "/" ++ "lep/sex" ++ "/") kwargs))
        else
          ([], .error invalidCombMsg) := by
  intro year kwargs r s d l
  cases r <;> cases s <;> cases d <;> cases l <;> rfl

/-- C6: get_crdc_discipline_segment with all four segment flags true is rejected,
because race and LEP cannot be combined together. -/
theorem discipline_all_four_rejected :
    resolve .disciplineSegment ⟨true, true, true, true⟩ =
      .error "Race and LEP cannot be combined together." := rfl

/-- C7: get_crdc_retention_segment with all four segment flags false raises for
every year, grade and filter mapping; the retention topic has no unsegmented legal
variant, and no request is issued. -/
theorem retention_empty_flags_rejected :
    ∀ (year grade : Int) (kwargs : KW),
      get_crdc_retention_segment year grade ⟨false, false, false, false⟩ kwargs =
        ([], .error invalidCombMsg) := by
  intro year grade kwargs
  rfl

/-- C10: get_ccd_enrollment performs no validation of its race and sex booleans:
all four combinations produce a URL, with fragment race/sex/ when both are true,
race/ for race alone, sex/ for sex alone, and no segment fragment when both are
false. -/
theorem ccd_enrollment_no_validation :
    ∀ (year grade : Int) (kwargs : KW),
      get_ccd_enrollment year grade true true kwargs =
        appendKwargs (BASE_URL ++ "schools/ccd/enrollment/" ++ toString year ++ "/grade-" ++ toString grade ++ "/" ++ "race/sex/") kwargs ∧
      get_ccd_enrollment year grade true false kwargs =
        appendKwargs (BASE_URL ++ "schools/ccd/enrollment/" ++ toString year ++ "/grade-" ++ toString grade ++ "/" ++ "race/") kwargs ∧
      get_ccd_enrollment year grade false true kwargs =
        appendKwargs (BASE_URL ++ "schools/ccd/enrollment/" ++ toString year ++ "/grade-" ++ toString grade ++ "/" ++ "sex/") kwargs ∧
      get_ccd_enrollment year grade false false kwargs =
        appendKwargs (BASE_URL ++ "schools/ccd/enrollment/" ++ toString year ++ "/grade-" ++ toString grade ++ "/") kwargs := by
  intro year grade kwargs
  exact ⟨rfl, rfl, rfl, rfl⟩

/-- String concatenation is associative. -/
theorem string_append_assoc (a b c : String) : a ++ b ++ c = a ++ (b ++ c) := by
  apply String.ext
  simp [List.append_assoc]

/-- C4: every flag combination a segmented method documents as allowed is accepted
by its validation and resolves to the fragment the method body appends; in
particular get_crdc_bullying_segment with race and sex true resolves to race/sex/
and get_crdc_discipline_segment with disability and sex true resolves to
disability/sex/. -/
theorem legal_subsets_resolve (t : Topic) (p : SegFlags × String)
    (h : p ∈ declaredLegal t) : resolve t p.1 = .ok p.2 := by
  cases t <;> simp only [declaredLegal, List.mem_cons, List.not_mem_nil, or_false] at h <;>
    rcases h with rfl | rfl | rfl <;> rfl

/-- Witness for legal_subsets_resolve at the bullying topic with race and sex
true. -/
theorem legal_subsets_resolve_witness :
    resolve .bullyingSegment ⟨true, true, false, false⟩ = .ok "race/sex/" :=
  legal_subsets_resolve .bullyingSegment (⟨true, true, false, false⟩, "race/sex/") (by decide)

/-- C5: the discipline and restraint segment methods accept only combinations that
contain the disability and sex anchor pair, and both reject race with sex alone
even though that pair is legal for other topics. -/
theorem anchor_topics_require_disability_sex :
    (∀ r s d l : Bool,
      (isAccepted (resolve .disciplineSegment ⟨r, s, d, l⟩) ||
       isAccepted (resolve .restraintSegment ⟨r, s, d, l⟩)) ≤ (d && s)) ∧
    resolve .disciplineSegment ⟨true, true, false, false⟩ =
      .error "Race can only be combined with disability and sex." ∧
    resolve .restraintSegment ⟨true, true, false, false⟩ =
      .error "Race can only be combined with disability and sex." := by
  refine ⟨?_, rfl, rfl⟩
  intro r s d l
  cases r <;> cases s <;> cases d <;> cases l <;> decide

/-- C8: whenever the resolver rejects a combination for a segmented method, the
method raises exactly that error, the list of URLs fetched through session.get is
empty, and no alternative combination is substituted: rejection is synchronous and
happens before any network activity. -/
theorem rejection_is_before_network :
    ∀ (t : Topic) (year grade : Int) (f : SegFlags) (kwargs : KW) (e : String),
      resolve t f = .error e →
      runTopic t year grade f kwargs = ([], .error e) := by
  intro t year grade f kwargs e h
  cases t
  case crdcEnrollment =>
    simp only [resolve] at h
    rw [map_error_iff] at h
    simp [runTopic, get_crdc_enrollment, h]
  case disciplineSegment =>
    simp only [resolve] at h
    rw [map_error_iff] at h
    simp [runTopic, get_crdc_discipline_segment, h]
  case bullyingSegment =>
    simp only [resolve] at h
    rw [map_error_iff] at h
    simp [runTopic, get_crdc_bullying_segment, h]
  case absenteeismSegment =>
    simp only [resolve] at h
    rw [map_error_iff] at h
    simp [runTopic, get_crdc_absenteeism_segment, h]
  case restraintSegment =>
    simp only [resolve] at h
    rw [map_error_iff] at h
    simp [runTopic, get_crdc_restraint_segment, h]
  case advancedEnrollmentSegment =>
    simp only [resolve] at h
    rw [map_error_iff] at h
    simp [runTopic, get_crdc_advanced_enrollment_segment, h]
  case apSegment =>
    simp only [resolve] at h
    rw [map_error_iff] at h
    simp [runTopic, get_crdc_ap_segment, h]
  case collegeExamSegment =>
    simp only [resolve] at h
    rw [map_error_iff] at h
    simp [runTopic, get_crdc_college_exam_segment, h]
  case mathScienceSegment =>
    simp only [resolve] at h
    rw [map_error_iff] at h
    simp [runTopic, get_crdc_math_science_enrollment_segment, h]
  case algebraSegment =>
    simp only [resolve] at h
    rw [map_error_iff] at h
    simp [runTopic, get_crdc_algebra_enrollment_segment, h]
  case dualEnrollmentSegment =>
    simp only [resolve] at h
    rw [map_error_iff] at h
    simp [runTopic, get_crdc_dual_enrollment_segment, h]
  case daysSuspendedSegment =>
    simp only [resolve] at h
    simp [runTopic, get_crdc_days_suspended_segment, h]
  case retentionSegment =>
    simp only [resolve] at h
    simp [runTopic, get_crdc_retention_segment, h]

/-- Witness for rejection_is_before_network at the days-suspended topic with race
alone. -/
theorem rejection_is_before_network_witness :
    runTopic .daysSuspendedSegment 2017 0 ⟨true, false, false, false⟩ [] =
      ([], .error invalidCombMsg) :=
  rejection_is_before_network .daysSuspendedSegment 2017 0 ⟨true, false, false, false⟩ []
    invalidCombMsg rfl

/-- C9 counterexample: get_ccd_summary does not follow the query pattern of the
other methods. With an empty extra filter mapping its URL already contains a
question mark and the three required query parameters, and a nonempty mapping is
joined to them with an ampersand, not introduced by a question mark. -/
theorem ccd_summary_breaks_query_pattern :
    get_ccd_summary "enrollment" "sum" "virtual" [] =
      BASE_URL ++ "schools/ccd/directory/summaries?var=enrollment&stat=sum&by=virtual" ∧
    get_ccd_summary "enrollment" "sum" "virtual" [("fips", "1")] ≠
      appendKwargs (get_ccd_summary "enrollment" "sum" "virtual" []) [("fips", "1")] ∧
    get_ccd_summary "enrollment" "sum" "virtual" [("fips", "1")] =
      get_ccd_summary "enrollment" "sum" "virtual" [] ++ "&fips=1" := by
  refine ⟨by decide, by decide, by decide⟩

/-- C9 amended: for every segmented method and for get_ccd_directory and
get_ccd_enrollment, the URL with extra filters is the URL without them followed by
a question mark and the verbatim key=value serialization exactly when the mapping
is nonempty, for every mapping whatsoever (no key or value validation);
get_ccd_summary instead joins a nonempty mapping with an ampersand after its
required parameters. -/
theorem query_append_characterization :
    (∀ (t : Topic) (year grade : Int) (f : SegFlags) (kwargs : KW),
      (runTopic t year grade f kwargs).2 =
        ((runTopic t year grade f []).2).map fun u => appendKwargs u kwargs) ∧
    (∀ (year : Int) (kwargs : KW),
      get_ccd_directory year kwargs = appendKwargs (get_ccd_directory year []) kwargs) ∧
    (∀ (year grade : Int) (race sex : Bool) (kwargs : KW),
      get_ccd_enrollment year grade race sex kwargs =
        appendKwargs (get_ccd_enrollment year grade race sex []) kwargs) ∧
    (∀ (var stat by_ : String) (kwargs : KW), kwargs ≠ [] →
      get_ccd_summary var stat by_ kwargs =
        get_ccd_summary var stat by_ [] ++ "&" ++ serializeKwargs kwargs) := by
  refine ⟨?_, ?_, ?_, ?_⟩
  · intro t year grade f kwargs
    cases t
    case crdcEnrollment =>
      cases hv : validatePairFamily f <;>
        simp [runTopic, get_crdc_enrollment, hv, appendKwargs_nil, Except.map]
    case disciplineSegment =>
      cases hv : validateAnchorFamily f <;>
        simp [runTopic, get_crdc_discipline_segment, hv, appendKwargs_nil, Except.map]
    case bullyingSegment =>
      cases hv : validatePairFamily f <;>
        simp [runTopic, get_crdc_bullying_segment, hv, appendKwargs_nil, Except.map]
    case absenteeismSegment =>
      cases hv : validatePairFamily f <;>
        simp [runTopic, get_crdc_absenteeism_segment, hv, appendKwargs_nil, Except.map]
    case restraintSegment =>
      cases hv : validateAnchorFamily f <;>
        simp [runTopic, get_crdc_restraint_segment, hv, appendKwargs_nil, Except.map]
    case advancedEnrollmentSegment =>
      cases hv : validatePairFamily f <;>
        simp [runTopic, get_crdc_advanced_enrollment_segment, hv, appendKwargs_nil, Except.map]
    case apSegment =>
      cases hv : validatePairFamily f <;>
        simp [runTopic, get_crdc_ap_segment, hv, appendKwargs_nil, Except.map]
    case collegeExamSegment =>
      cases hv : validatePairFamily f <;>
        simp [runTopic, get_crdc_college_exam_segment, hv, appendKwargs_nil, Except.map]
    case mathScienceSegment =>
      cases hv : validatePairFamily f <;>
        simp [runTopic, get_crdc_math_science_enrollment_segment, hv, appendKwargs_nil, Except.map]
    case algebraSegment =>
      cases hv : validatePairFamily f <;>
        simp [runTopic, get_crdc_algebra_enrollment_segment, hv, appendKwargs_nil, Except.map]
    case dualEnrollmentSegment =>
      cases hv : validatePairFamily f <;>
        simp [runTopic, get_crdc_dual_enrollment_segment, hv, appendKwargs_nil, Except.map]
    case daysSuspendedSegment =>
      cases hv : validateDaysSuspended f <;>
        simp [runTopic, get_crdc_days_suspended_segment, hv, appendKwargs_nil, Except.map]
    case retentionSegment =>
      cases hv : validateRetention f <;>
        simp [runTopic, get_crdc_retention_segment, hv, appendKwargs_nil, Except.map]
  · intro year kwargs
    simp [get_ccd_directory, appendKwargs_nil]
  · intro year grade race sex kwargs
    simp [get_ccd_enrollment, appendKwargs_nil]
  · intro var stat by_ kwargs hk
    have hk' : kwargs.isEmpty = false := by
      cases kwargs with
      | nil => exact absurd rfl hk
      | cons a tl => rfl
    simp [get_ccd_summary, hk', string_append_assoc]

/-- Witness for query_append_characterization at get_ccd_summary with one extra
filter. -/
theorem query_append_characterization_witness :
    get_ccd_summary "enrollment" "sum" "virtual" [("fips", "1")] =
      get_ccd_summary "enrollment" "sum" "virtual" [] ++ "&" ++ serializeKwargs [("fips", "1")] :=
  query_append_characterization.2.2.2 "enrollment" "sum" "virtual" [("fips", "1")] (by decide)
